import Mathlib

/-!
Shallow embedding of `openstack_cli_setup.py`, a bootstrap script that
prepares a workstation to operate an OpenStack control plane in a
Kubernetes cluster.  External effects (subprocess invocations, file
writes, console prints) are modelled as an explicit event trace; the
filesystem state touched by the hosts-file patcher is modelled as an
explicit record.  Machine-provided values (the kubeconfig file's
existence, the stdout of `kubectl` invocations, environment variables)
are oracle parameters of the embedded functions.
-/

namespace OpenstackSetup

/-- An observable side effect of the script: console output, a `kubectl`
subprocess invocation, a file copy, a file write, a chmod, a mkdir, or a
network download.  (Python source: `print`, `run`, `shutil.copy`,
`open(...).write`, `chmod`, `mkdir`, `urlretrieve`.) -/
inductive Ev where
  | printMsg (msg : String)
  | execKubectl (args : String)
  | copyFile (src dst : String)
  | writeFile (path : String)
  | chmodFile (path : String)
  | mkdirDir (path : String)
  | download (url path : String)
deriving DecidableEq, Repr

/-! ## Hosts-file patcher (`modify_hosts_file`, source lines 142-168) -/

/-- `domain = '.it.just.works'` (source line 143). -/
def domain : String := ".it.just.works"

/-- The fixed endpoint list of `modify_hosts_file` (source lines 144-145),
verbatim and in source order. -/
def endpoints : List String :=
  ["horizon", "masakari", "keystone", "placement", "barbican",
   "cloudformation", "cinder", "gnocchi", "glance", "neutron", "aodh",
   "heat", "openstack-store", "designate", "nova", "octavia", "glance-api"]

/-- Python's substring test `domain in line`, as infix of character lists. -/
def containsDomain (line : String) : Bool :=
  decide (domain.toList <:+: line.toList)

/-- One hosts line per endpoint: `f"{ip} {endpoint + domain}"`
(source lines 162-163; the trailing `"\n"` is implicit in the
line-list model of the file). -/
def hostEntries (ip : String) : List String :=
  endpoints.map (fun e => ip ++ " " ++ e ++ domain)

/-- Python's `str.strip()`: drop leading and trailing whitespace. -/
def pyStrip (s : String) : String :=
  String.mk
    (((s.data.dropWhile Char.isWhitespace).reverse.dropWhile Char.isWhitespace).reverse)

/-- Python string interpolation of a possibly-`None` value: `f"{ip} ..."`
renders `None` as the literal text `None`. -/
def pyStrOpt : Option String → String
  | none => "None"
  | some s => s

/-- The filesystem state the hosts-file patcher touches.  Each file is a
list of lines (without terminators); `none` means the file does not exist. -/
structure HostsFS where
  etcHosts : List String
  etcHostsBak : Option (List String)
  etcNewHosts : Option (List String)
deriving DecidableEq, Repr

/-- `get_ingress_ip` (source lines 109-119): if the kubeconfig file is
missing, print a diagnostic and return `None`; otherwise run
`kubectl get service -n openstack ingress ...` and return the stripped
stdout.  `ingressStdout` is the oracle for the subprocess's stdout. -/
def get_ingress_ip (kubeconfigExists : Bool) (ingressStdout : String) :
    Option String × List Ev :=
  if kubeconfigExists then
    (some (pyStrip ingressStdout),
     [Ev.execKubectl "get service -n openstack ingress -o jsonpath"])
  else
    (none, [Ev.printMsg "KUBECONFIG file does not exist"])

/-- The write loop of source lines 154-158: each original line is written
to `/etc/new_hosts` unless it contains the domain. -/
def writeKeptLines (orig : List String) : List String :=
  orig.foldl (fun acc line => if containsDomain line then acc else acc ++ [line]) []

/-- The append loop of source lines 161-165: each resolve entry is
appended to `/etc/new_hosts` in turn. -/
def appendEntries (content : List String) (entries : List String) : List String :=
  entries.foldl (fun acc e => acc ++ [e]) content

/-- `modify_hosts_file` (source lines 142-168): resolve the ingress IP,
copy `/etc/hosts` to `/etc/hosts.bak`, write every original line not
containing the domain to `/etc/new_hosts`, append one `"{ip} {endpoint}"`
line per fixed endpoint, and copy `/etc/new_hosts` over `/etc/hosts`. -/
def modify_hosts_file (kubeconfigExists : Bool) (ingressStdout : String)
    (fs : HostsFS) : HostsFS × List Ev :=
  let (ipOpt, ev1) := get_ingress_ip kubeconfigExists ingressStdout
  let ip := pyStrOpt ipOpt
  -- shutil.copy("/etc/hosts", "/etc/hosts.bak")
  let fs1 : HostsFS := { fs with etcHostsBak := some fs.etcHosts }
  -- open('/etc/new_hosts', 'w') truncates; the loop writes kept lines
  let kept := writeKeptLines fs1.etcHosts
  let fs2 : HostsFS := { fs1 with etcNewHosts := some kept }
  -- open('/etc/new_hosts', 'a+') appends the endpoint entries
  let newContent := appendEntries kept (hostEntries ip)
  let fs3 : HostsFS := { fs2 with etcNewHosts := some newContent }
  -- shutil.copy("/etc/new_hosts", "/etc/hosts")
  let fs4 : HostsFS := { fs3 with etcHosts := newContent }
  (fs4,
   ev1 ++
   [Ev.copyFile "/etc/hosts" "/etc/hosts.bak",
    Ev.printMsg "Original /etc/hosts filed saved as /etc/hosts.bak",
    Ev.writeFile "/etc/new_hosts",
    Ev.writeFile "/etc/new_hosts",
    Ev.copyFile "/etc/new_hosts" "/etc/hosts"])

/-! ## Architecture normalization (`install_kubectl`, source lines 82-88) -/

/-- The architecture normalization of `install_kubectl` (source lines
82-88): `arch in ("x86_64", "amd64")` maps to `"amd64"`,
`arch in ("aarch64", "arm64")` maps to `"arm64"`, anything else falls
back to `"amd64"`. -/
def normalizeArch (arch : String) : String :=
  if arch = "x86_64" ∨ arch = "amd64" then "amd64"
  else if arch = "aarch64" ∨ arch = "arm64" then "arm64"
  else "amd64"

/-! ## Credential document model (`get_clouds_yaml_from_client`, lines 121-140)

The credential document is YAML parsed by `yaml.safe_load` into nested
Python dicts; we model YAML values with an inductive type and Python
dicts as ordered association lists (Python dicts preserve insertion
order; assignment to an existing key keeps its position, assignment to a
fresh key appends at the end). -/

/-- A YAML value: null, string, boolean, integer, or mapping. -/
inductive Yaml where
  | null : Yaml
  | str : String → Yaml
  | bool : Bool → Yaml
  | int : Int → Yaml
  | map : List (String × Yaml) → Yaml

/-- Python dict lookup `d[k]` on an ordered association list. -/
def getKey : List (String × Yaml) → String → Option Yaml
  | [], _ => none
  | (k, v) :: rest, key => if k = key then some v else getKey rest key

/-- Python dict assignment `d[k] = v`: replace the value at an existing
key in place, or append a new binding at the end. -/
def setKey : List (String × Yaml) → String → Yaml → List (String × Yaml)
  | [], key, v => [(key, v)]
  | (k, w) :: rest, key, v =>
      if k = key then (k, v) :: rest else (k, w) :: setKey rest key v

/-- A chained Python subscript assignment
`y[k₁][k₂]...[kₙ] = v`: every intermediate subscript must find an
existing key (else `KeyError`) whose value is a dict (else `TypeError`);
the final subscript assigns into a dict. -/
def setPath : List String → Yaml → Yaml → Except String Yaml
  | [], v, _ => Except.ok v
  | [k], v, y =>
      match y with
      | Yaml.map m => Except.ok (Yaml.map (setKey m k v))
      | _ => Except.error "TypeError: object does not support item assignment"
  | k :: k' :: rest, v, y =>
      match y with
      | Yaml.map m =>
          match getKey m k with
          | some child =>
              (setPath (k' :: rest) v child).map (fun c => Yaml.map (setKey m k c))
          | none => Except.error "KeyError"
      | _ => Except.error "TypeError: object is not subscriptable"

/-- Python's `y.get(k)`: `AttributeError` when `y` is not a dict,
`None` when the key is absent. -/
def pyGet (y : Yaml) (k : String) : Except String Yaml :=
  match y with
  | Yaml.map m =>
      match getKey m k with
      | some v => Except.ok v
      | none => Except.ok Yaml.null
  | _ => Except.error "AttributeError: object has no attribute get"

/-- Read-only path lookup used to state properties of documents. -/
def lookupPath : Yaml → List String → Option Yaml
  | y, [] => some y
  | Yaml.map m, k :: rest =>
      match getKey m k with
      | some v => lookupPath v rest
      | none => none
  | _, _ :: _ => none

/-- The auth URL written into the admin profile (source line 130). -/
def keystoneURL : String := "https://keystone.it.just.works"

/-- The four field mutations of source lines 130-133, in order. -/
def mutate_admin (data : Yaml) : Except String Yaml := do
  let d₁ ← setPath ["clouds", "admin", "auth", "auth_url"] (Yaml.str keystoneURL) data
  let d₂ ← setPath ["clouds", "admin", "verify"] (Yaml.bool false) d₁
  let d₃ ← setPath ["clouds", "admin", "interface"] (Yaml.str "public") d₂
  setPath ["clouds", "admin", "endpoint_type"] (Yaml.str "publicURL") d₃

/-- The result of a successful `get_clouds_yaml_from_client`: the value
serilalized as the first return component (`yaml.dump` is modelled as
the identity embedding of documents), the document written to the
output file, and the output file path. -/
structure CloudsOut where
  returnedDump : Yaml
  writtenDoc : Yaml
  outputPath : String

/-- `get_clouds_yaml_from_client` (source lines 121-140): if the
kubeconfig file is missing, print a diagnostic and return `None`
(modelled `Except.ok none`); otherwise run `kubectl exec ... cat
/etc/openstack/clouds.yaml`, parse the stdout (`remoteDoc` is the
oracle for the parsed document), overwrite the four admin fields,
build `data_full = {'clouds': {'admin': data.get('clouds').get('admin')}}`,
write it to `clouds.yaml`, and return the dumped admin profile together
with the output path.  A `KeyError`/`TypeError`/`AttributeError` raised
by the subscripting is `Except.error`. -/
def get_clouds_yaml_from_client (kubeconfigExists : Bool) (remoteDoc : Yaml) :
    Except String (Option CloudsOut) × List Ev :=
  if kubeconfigExists then
    let evs := [Ev.execKubectl
      "exec -n openstack deploy/keystone-client -- cat /etc/openstack/clouds.yaml"]
    match mutate_admin remoteDoc with
    | Except.error e => (Except.error e, evs)
    | Except.ok d =>
      match pyGet d "clouds" with
      | Except.error e => (Except.error e, evs)
      | Except.ok cloudsVal =>
        match pyGet cloudsVal "admin" with
        | Except.error e => (Except.error e, evs)
        | Except.ok adminVal =>
          let dataFull := Yaml.map [("clouds", Yaml.map [("admin", adminVal)])]
          (Except.ok (some ⟨adminVal, dataFull, "clouds.yaml"⟩),
           evs ++ [Ev.writeFile "clouds.yaml"])
  else
    (Except.ok none, [Ev.printMsg "KUBECONFIG file does not exist"])

/-! ## kubectl locator (`install_kubectl`, source lines 65-107) -/

/-- The machine-provided inputs of `install_kubectl`: the
`KUBECTL_PATH` environment variable, whether the fixed seed-node path
exists, the result of `shutil.which("kubectl")`, the platform name and
machine architecture, the stdout of the stable-version endpoint
(`none` models a network failure), and the home directory. -/
structure KubectlWorld where
  kubectlPathEnv : Option String
  seedExists : Bool
  whichResult : Option String
  system : String
  machine : String
  stableVersion : Option String
  home : String
deriving DecidableEq, Repr

/-- Python truthiness of `os.getenv(...)`: `None` and the empty string
are falsy, any other string is truthy. -/
def envTruthy : Option String → Bool
  | none => false
  | some s => s ≠ ""

/-- The fixed seed-node kubectl path (source line 70). -/
def seedKubectlPath : String := "/home/ubuntu/bootstrap/dev/bin/kubectl"

/-- The body of `install_kubectl` past the `KUBECTL_PATH` check (source
lines 69-107): the seed-node path if it exists; else, after creating
`~/.local/bin`, the `shutil.which` result if any; else download the
stable (or fallback `v1.27.0`) release for the platform to
`~/.local/bin/kubectl` and mark it executable. -/
def install_kubectl_rest (w : KubectlWorld) : String × List Ev :=
  if w.seedExists then (seedKubectlPath, [])
  else
    let kubectlPath := w.home ++ "/.local/bin/kubectl"
    let mkdirEv := Ev.mkdirDir (w.home ++ "/.local/bin")
    match w.whichResult with
    | some p => (p, [mkdirEv, Ev.printMsg "kubectl already installed"])
    | none =>
      let version := match w.stableVersion with
        | some v => pyStrip v
        | none => "v1.27.0"
      let url := "https://dl.k8s.io/release/" ++ version ++ "/bin/" ++
        w.system ++ "/" ++ normalizeArch w.machine ++ "/kubectl"
      (kubectlPath,
       [mkdirEv, Ev.download url kubectlPath, Ev.chmodFile kubectlPath,
        Ev.chmodFile kubectlPath])

/-- `install_kubectl` (source lines 65-107), returning the resolved
kubectl path and the event trace.  `if os.getenv('KUBECTL_PATH'):`
(source line 67) uses Python truthiness, so an unset variable and an
empty string both fall through. -/
def install_kubectl (w : KubectlWorld) : String × List Ev :=
  if envTruthy w.kubectlPathEnv then (w.kubectlPathEnv.getD "", [])
  else install_kubectl_rest w

/-! ## Module load (source line 13) and process start -/

/-- `KUBECONFIG_FILE = Path(os.getenv('KUBECONFIG'))` (source line 13),
executed at module load: `Path(None)` raises `TypeError`. -/
def moduleLoad (kubeconfigEnv : Option String) : Except String String :=
  match kubeconfigEnv with
  | none => Except.error
      "TypeError: argument should be a str or an os.PathLike object, not NoneType"
  | some s => Except.ok s

/-- Oracle inputs for a whole run of the script. -/
structure World where
  venvExists : Bool
  kubectlWorld : KubectlWorld
  kubeconfigExists : Bool
  remoteDoc : Yaml
  ingressStdout : String
  hostsFS : HostsFS

/-- The event trace of `main` (source lines 170-180) up to and including
the hosts-file patch, assuming subprocess invocations succeed:
`create_virtualenv` → `install_dependencies` → `install_kubectl` →
`get_clouds_yaml_from_client` → `modify_hosts_file`. -/
def mainTrace (w : World) : List Ev :=
  (if w.venvExists then [Ev.printMsg "Virtualenv already exists."]
   else [Ev.printMsg "Creating virtual environment...",
         Ev.execKubectl "python -m venv .venv"]) ++
  [Ev.writeFile "requirements.txt", Ev.execKubectl "pip install -r requirements.txt"] ++
  (install_kubectl w.kubectlWorld).2 ++
  (get_clouds_yaml_from_client w.kubeconfigExists w.remoteDoc).2 ++
  (modify_hosts_file w.kubeconfigExists w.ingressStdout w.hostsFS).2

/-- Process start: Python first executes the module body, which
constructs `KUBECONFIG_FILE` from the environment (source line 13);
only if that succeeds does `main()` run and produce component events. -/
def runScript (kubeconfigEnv : Option String) (w : World) :
    Except String (List Ev) :=
  match moduleLoad kubeconfigEnv with
  | Except.error e => Except.error e
  | Except.ok _ => Except.ok (mainTrace w)

/-! ## Derived forms used to state properties of the credential fetcher -/

/-- The admin `auth` mapping after the mutation of source line 130:
`auth_url` overwritten, everything else untouched. -/
def authFinal (au : List (String × Yaml)) : List (String × Yaml) :=
  setKey au "auth_url" (Yaml.str keystoneURL)

/-- The admin profile mapping after the four mutations of source lines
130-133, in order. -/
def adminFinal (am au : List (String × Yaml)) : List (String × Yaml) :=
  setKey (setKey (setKey (setKey am "auth" (Yaml.map (authFinal au)))
    "verify" (Yaml.bool false)) "interface" (Yaml.str "public"))
    "endpoint_type" (Yaml.str "publicURL")

/-- Projection of a fetcher outcome onto the document written to
`clouds.yaml` (`none` when nothing was written). -/
def writtenDocOf : Except String (Option CloudsOut) → Option Yaml
  | Except.ok (some c) => some c.writtenDoc
  | _ => none

/-- A concrete credential document with an `admin` profile and a second
profile `otherCloud`, used as an explicit input. -/
def exampleDoc : Yaml :=
  Yaml.map [("clouds", Yaml.map
    [("admin", Yaml.map
       [("auth", Yaml.map [("auth_url", Yaml.str "http://keystone.local")]),
        ("region_name", Yaml.str "r1")]),
     ("otherCloud", Yaml.map [("region_name", Yaml.str "r2")])])]

/-! ## Helper lemmas about the hosts-file patcher -/

theorem writeKeptLines_go (acc orig : List String) :
    orig.foldl (fun a line => if containsDomain line then a else a ++ [line]) acc =
      acc ++ orig.filter (fun l => !containsDomain l) := by
  induction orig generalizing acc with
  | nil => simp
  | cons x xs ih =>
    simp only [List.foldl_cons, List.filter_cons]
    cases hc : containsDomain x <;> simp [hc, ih]

theorem writeKeptLines_eq_filter (orig : List String) :
    writeKeptLines orig = orig.filter (fun l => !containsDomain l) := by
  simpa using writeKeptLines_go [] orig

theorem appendEntries_eq_append (c es : List String) :
    appendEntries c es = c ++ es := by
  induction es generalizing c with
  | nil => simp [appendEntries]
  | cons e es ih =>
    simp only [appendEntries, List.foldl_cons] at *
    rw [ih]
    simp

theorem etcHosts_modify (b : Bool) (stdout : String) (fs : HostsFS) :
    (modify_hosts_file b stdout fs).1.etcHosts =
      fs.etcHosts.filter (fun l => !containsDomain l) ++
        hostEntries (pyStrOpt (get_ingress_ip b stdout).1) := by
  cases b <;>
    simp [modify_hosts_file, get_ingress_ip, writeKeptLines_eq_filter,
      appendEntries_eq_append]

theorem bak_modify (b : Bool) (stdout : String) (fs : HostsFS) :
    (modify_hosts_file b stdout fs).1.etcHostsBak = some fs.etcHosts := by
  cases b <;> simp [modify_hosts_file, get_ingress_ip]

theorem containsDomain_hostEntry (ip e : String) :
    containsDomain (ip ++ " " ++ e ++ domain) = true := by
  simp only [containsDomain, decide_eq_true_eq]
  exact (List.suffix_append (ip ++ " " ++ e).toList domain.toList).isInfix

theorem hostEntry_injective (ip : String) :
    Function.Injective (fun e => ip ++ " " ++ e ++ domain) := by
  intro a b h
  simp only at h
  have hd := congrArg String.data h
  simp only [String.data_append] at hd
  have h₁ := List.append_cancel_right hd
  have h₂ := List.append_cancel_left h₁
  cases a; cases b; simp_all

theorem hostEntries_nodup (ip : String) : (hostEntries ip).Nodup :=
  List.Nodup.map (hostEntry_injective ip) (by decide)

theorem mem_hostEntries_containsDomain (ip l : String) (h : l ∈ hostEntries ip) :
    containsDomain l = true := by
  rcases List.mem_map.mp h with ⟨e, _, rfl⟩
  exact containsDomain_hostEntry ip e

theorem trace_modify (b : Bool) (stdout : String) (fs : HostsFS) :
    (modify_hosts_file b stdout fs).2 =
      (if b then [Ev.execKubectl "get service -n openstack ingress -o jsonpath"]
       else [Ev.printMsg "KUBECONFIG file does not exist"]) ++
      [Ev.copyFile "/etc/hosts" "/etc/hosts.bak",
       Ev.printMsg "Original /etc/hosts filed saved as /etc/hosts.bak",
       Ev.writeFile "/etc/new_hosts",
       Ev.writeFile "/etc/new_hosts",
       Ev.copyFile "/etc/new_hosts" "/etc/hosts"] := by
  cases b <;> rfl

/-! ## Claims about the hosts-file patcher and architecture normalization -/

/-- C1 counterexample: the fixed endpoint list of `modify_hosts_file`
has 17 entries, not 16, so rewriting an empty hosts file appends 17
lines, not the 16 the claim states. -/
theorem C1_counterexample :
    endpoints.length = 17 ∧
    (modify_hosts_file true "10.0.0.5" ⟨[], none, none⟩).1.etcHosts.length = 17 ∧
    ¬ (modify_hosts_file true "10.0.0.5" ⟨[], none, none⟩).1.etcHosts.length = 16 := by
  refine ⟨by decide, ?_, ?_⟩ <;>
    · rw [etcHosts_modify]
      decide

/-- C1 (amended): the hosts file produced by `modify_hosts_file`
consists of exactly the original lines not containing the domain
suffix, preserved verbatim and in their original relative order,
followed by exactly 17 newly appended lines, one per service name in
the fixed endpoint list, each of the form `<ip> <service>.it.just.works`
with the same resolved ingress IP (the stripped `kubectl` stdout) on
every appended line. -/
theorem C1_hosts_rewrite (stdout : String) (fs : HostsFS) :
    (modify_hosts_file true stdout fs).1.etcHosts =
      fs.etcHosts.filter (fun l => !containsDomain l) ++
        hostEntries (pyStrip stdout) ∧
    (hostEntries (pyStrip stdout)).length = 17 ∧
    List.Sublist (fs.etcHosts.filter (fun l => !containsDomain l)) fs.etcHosts ∧
    ∀ l ∈ hostEntries (pyStrip stdout),
      ∃ e ∈ endpoints, l = pyStrip stdout ++ " " ++ e ++ domain := by
  refine ⟨etcHosts_modify true stdout fs, by simp [hostEntries, endpoints],
    List.filter_sublist _, ?_⟩
  intro l hl
  rcases List.mem_map.mp hl with ⟨e, he, rfl⟩
  exact ⟨e, he, rfl⟩

/-- C1 witness: instantiation of the amended claim at a concrete stdout
and hosts file, with the membership hypothesis discharged at the first
appended line. -/
theorem C1_hosts_rewrite_witness :
    ∃ e ∈ endpoints,
      "10.0.0.5 horizon.it.just.works" = pyStrip "10.0.0.5\n" ++ " " ++ e ++ domain :=
  (C1_hosts_rewrite "10.0.0.5\n" ⟨["127.0.0.1 localhost"], none, none⟩).2.2.2
    "10.0.0.5 horizon.it.just.works" (by decide)

/-- C4: running `modify_hosts_file` twice with the same resolved ingress
IP is idempotent on the hosts file: the second run strips every line
containing the domain suffix before re-appending the fixed entries, so
the resulting file equals the first run's file, contains no
domain-suffix line beyond the fixed per-service set, and each fixed
entry appears exactly once. -/
theorem C4_idempotent (stdout : String) (fs : HostsFS) :
    (modify_hosts_file true stdout (modify_hosts_file true stdout fs).1).1.etcHosts =
      (modify_hosts_file true stdout fs).1.etcHosts ∧
    (∀ l ∈ (modify_hosts_file true stdout
        (modify_hosts_file true stdout fs).1).1.etcHosts,
      containsDomain l = true → l ∈ hostEntries (pyStrip stdout)) ∧
    ∀ l ∈ hostEntries (pyStrip stdout),
      (modify_hosts_file true stdout
        (modify_hosts_file true stdout fs).1).1.etcHosts.count l = 1 := by
  have h1 := etcHosts_modify true stdout fs
  have h2 := etcHosts_modify true stdout (modify_hosts_file true stdout fs).1
  have hip : pyStrOpt (get_ingress_ip true stdout).1 = pyStrip stdout := rfl
  rw [hip] at h1 h2
  rw [h1] at h2
  have hKf : (fs.etcHosts.filter (fun l => !containsDomain l)).filter
      (fun l => !containsDomain l) = fs.etcHosts.filter (fun l => !containsDomain l) :=
    List.filter_eq_self.mpr (fun a ha => (List.mem_filter.mp ha).2)
  have hEf : (hostEntries (pyStrip stdout)).filter (fun l => !containsDomain l) = [] :=
    List.filter_eq_nil_iff.mpr (fun a ha => by
      simp [mem_hostEntries_containsDomain (pyStrip stdout) a ha])
  rw [List.filter_append, hKf, hEf, List.append_nil] at h2
  refine ⟨h2.trans h1.symm, ?_, ?_⟩
  · intro l hl hcd
    rw [h2] at hl
    rcases List.mem_append.mp hl with hK | hE
    · have := (List.mem_filter.mp hK).2
      simp [hcd] at this
    · exact hE
  · intro l hl
    rw [h2, List.count_append]
    have hK0 : (fs.etcHosts.filter (fun l => !containsDomain l)).count l = 0 :=
      List.count_eq_zero.mpr (fun hmem => by
        have hne := (List.mem_filter.mp hmem).2
        simp [mem_hostEntries_containsDomain (pyStrip stdout) l hl] at hne)
    rw [hK0, List.count_eq_one_of_mem (hostEntries_nodup (pyStrip stdout)) hl]

/-- C4 witness: instantiation at a concrete stdout and hosts file, with
the membership hypothesis discharged at the first appended line. -/
theorem C4_idempotent_witness :
    (modify_hosts_file true "10.0.0.5"
      (modify_hosts_file true "10.0.0.5"
        ⟨["127.0.0.1 localhost"], none, none⟩).1).1.etcHosts.count
      "10.0.0.5 horizon.it.just.works" = 1 :=
  (C4_idempotent "10.0.0.5" ⟨["127.0.0.1 localhost"], none, none⟩).2.2
    "10.0.0.5 horizon.it.just.works" (by decide)

/-- C5: the CPU-architecture normalization in `install_kubectl` maps
`"x86_64"` and `"amd64"` to `"amd64"`, maps `"aarch64"` and `"arm64"`
to `"arm64"`, and maps every other input to `"amd64"` (a total
function, so no error is raised). -/
theorem C5_arch_normalization (a : String) :
    normalizeArch "x86_64" = "amd64" ∧ normalizeArch "amd64" = "amd64" ∧
    normalizeArch "aarch64" = "arm64" ∧ normalizeArch "arm64" = "arm64" ∧
    (a ≠ "x86_64" → a ≠ "amd64" → a ≠ "aarch64" → a ≠ "arm64" →
      normalizeArch a = "amd64") := by
  refine ⟨by decide, by decide, by decide, by decide, ?_⟩
  intro h1 h2 h3 h4
  simp [normalizeArch, h1, h2, h3, h4]

/-- C5 witness: the fallback branch at the concrete input `"riscv64"`. -/
theorem C5_arch_normalization_witness : normalizeArch "riscv64" = "amd64" :=
  (C5_arch_normalization "riscv64").2.2.2.2 (by decide) (by decide) (by decide)
    (by decide)

/-- C7: in every run of `modify_hosts_file`, the backup copy records the
pre-mutation `/etc/hosts` content, and in the event trace every
overwrite of the live `/etc/hosts` is strictly preceded by the backup
copy to `/etc/hosts.bak`. -/
theorem C7_backup_precedes_overwrite (b : Bool) (stdout : String) (fs : HostsFS) :
    (modify_hosts_file b stdout fs).1.etcHostsBak = some fs.etcHosts ∧
    ∀ j : Nat,
      ((modify_hosts_file b stdout fs).2)[j]? =
          some (Ev.copyFile "/etc/new_hosts" "/etc/hosts") →
        ∃ i : Nat, i < j ∧
          ((modify_hosts_file b stdout fs).2)[i]? =
            some (Ev.copyFile "/etc/hosts" "/etc/hosts.bak") := by
  refine ⟨bak_modify b stdout fs, ?_⟩
  intro j hj
  rw [trace_modify] at hj ⊢
  cases b <;>
  · rcases Nat.lt_or_ge j 6 with h6 | h6
    · interval_cases j
      · exact absurd hj (by decide)
      · exact absurd hj (by decide)
      · exact absurd hj (by decide)
      · exact absurd hj (by decide)
      · exact absurd hj (by decide)
      · exact ⟨1, by omega, by decide⟩
    · rw [List.getElem?_eq_none (le_trans (by decide) h6)] at hj
      cases hj

/-- C7 witness: instantiation at a concrete run, with the overwrite
located at trace position 5. -/
theorem C7_backup_precedes_overwrite_witness :
    ∃ i : Nat, i < 5 ∧
      ((modify_hosts_file true "10.0.0.5" ⟨[], none, none⟩).2)[i]? =
        some (Ev.copyFile "/etc/hosts" "/etc/hosts.bak") :=
  (C7_backup_precedes_overwrite true "10.0.0.5" ⟨[], none, none⟩).2 5 (by decide)

/-- C10: when the kubeconfig file is missing, `modify_hosts_file` still
proceeds: `get_ingress_ip` returns `none`, the backup is taken, and the
live hosts file is replaced with each appended line carrying the literal
text `None` in place of an IP (`"None <service>.it.just.works"`). -/
theorem C10_missing_kubeconfig_hosts (stdout : String) (fs : HostsFS) :
    (get_ingress_ip false stdout).1 = none ∧
    (modify_hosts_file false stdout fs).1.etcHostsBak = some fs.etcHosts ∧
    (modify_hosts_file false stdout fs).1.etcHosts =
      fs.etcHosts.filter (fun l => !containsDomain l) ++
        endpoints.map (fun e => "None " ++ e ++ domain) := by
  refine ⟨rfl, bak_modify false stdout fs, ?_⟩
  rw [etcHosts_modify]
  congr 1

/-! ## Helper lemmas about the credential document model -/

theorem getKey_setKey_self (m : List (String × Yaml)) (k : String) (v : Yaml) :
    getKey (setKey m k v) k = some v := by
  induction m with
  | nil => simp [getKey, setKey]
  | cons p rest ih =>
    obtain ⟨k₀, w⟩ := p
    by_cases h : k₀ = k
    · simp [setKey, getKey, h]
    · simp [setKey, getKey, h, ih]

theorem getKey_setKey_ne (m : List (String × Yaml)) (k k' : String) (v : Yaml)
    (h : k' ≠ k) : getKey (setKey m k v) k' = getKey m k' := by
  induction m with
  | nil => simp [getKey, setKey, Ne.symm h]
  | cons p rest ih =>
    obtain ⟨k₀, w⟩ := p
    by_cases h₀ : k₀ = k
    · subst h₀
      simp [setKey, getKey, Ne.symm h]
    · simp [setKey, getKey, h₀, ih]

/-- Evaluation of the credential fetcher on any document whose `clouds`,
`admin` and `auth` levels are mappings: the four mutations succeed and
the written document wraps the mutated admin profile alone. -/
theorem clouds_run (m cm am au : List (String × Yaml))
    (hclouds : getKey m "clouds" = some (Yaml.map cm))
    (hadmin : getKey cm "admin" = some (Yaml.map am))
    (hauth : getKey am "auth" = some (Yaml.map au)) :
    get_clouds_yaml_from_client true (Yaml.map m) =
      (Except.ok (some ⟨Yaml.map (adminFinal am au),
        Yaml.map [("clouds", Yaml.map [("admin", Yaml.map (adminFinal am au))])],
        "clouds.yaml"⟩),
       [Ev.execKubectl
          "exec -n openstack deploy/keystone-client -- cat /etc/openstack/clouds.yaml",
        Ev.writeFile "clouds.yaml"]) := by
  simp only [get_clouds_yaml_from_client, if_true]
  simp [mutate_admin, setPath, pyGet, hclouds, hadmin, hauth, getKey_setKey_self,
    getKey_setKey_ne, Bind.bind, Except.bind, Except.map, adminFinal, authFinal]

/-! ## Claims about the credential fetcher, locators, and module load -/

/-- C2 counterexample: the input `exampleDoc` contains a second cloud
profile `otherCloud`, but the document written by
`get_clouds_yaml_from_client` does not contain it, so not every other
field of the input document is preserved in the output. -/
theorem C2_counterexample :
    lookupPath exampleDoc ["clouds", "otherCloud"] =
      some (Yaml.map [("region_name", Yaml.str "r2")]) ∧
    (writtenDocOf (get_clouds_yaml_from_client true exampleDoc).1).isSome = true ∧
    (writtenDocOf (get_clouds_yaml_from_client true exampleDoc).1).bind
      (fun w => lookupPath w ["clouds", "otherCloud"]) = none :=
  ⟨rfl, rfl, rfl⟩

/-- C2 (amended): for every input document whose `clouds`, `admin` and
`admin.auth` levels are mappings, the written document's `admin` profile
has `auth.auth_url = "https://keystone.it.just.works"`,
`verify = false`, `interface = "public"`, `endpoint_type = "publicURL"`,
and every other field of the admin profile (including every other field
of its `auth` mapping) is preserved unchanged; cloud profiles other than
`admin` are dropped from the written document. -/
theorem C2_admin_mutation (m cm am au : List (String × Yaml))
    (hclouds : getKey m "clouds" = some (Yaml.map cm))
    (hadmin : getKey cm "admin" = some (Yaml.map am))
    (hauth : getKey am "auth" = some (Yaml.map au)) :
    ∃ r : CloudsOut,
      (get_clouds_yaml_from_client true (Yaml.map m)).1 = Except.ok (some r) ∧
      lookupPath r.writtenDoc ["clouds", "admin", "auth", "auth_url"] =
        some (Yaml.str keystoneURL) ∧
      lookupPath r.writtenDoc ["clouds", "admin", "verify"] =
        some (Yaml.bool false) ∧
      lookupPath r.writtenDoc ["clouds", "admin", "interface"] =
        some (Yaml.str "public") ∧
      lookupPath r.writtenDoc ["clouds", "admin", "endpoint_type"] =
        some (Yaml.str "publicURL") ∧
      (∀ k, k ≠ "auth_url" →
        lookupPath r.writtenDoc ["clouds", "admin", "auth", k] =
          lookupPath (Yaml.map m) ["clouds", "admin", "auth", k]) ∧
      (∀ k, k ≠ "auth" → k ≠ "verify" → k ≠ "interface" → k ≠ "endpoint_type" →
        lookupPath r.writtenDoc ["clouds", "admin", k] =
          lookupPath (Yaml.map m) ["clouds", "admin", k]) ∧
      ∀ p, p ≠ "admin" → lookupPath r.writtenDoc ["clouds", p] = none := by
  refine ⟨⟨Yaml.map (adminFinal am au),
    Yaml.map [("clouds", Yaml.map [("admin", Yaml.map (adminFinal am au))])],
    "clouds.yaml"⟩,
    congrArg Prod.fst (clouds_run m cm am au hclouds hadmin hauth),
    ?_, ?_, ?_, ?_, ?_, ?_, ?_⟩
  · simp [lookupPath, getKey, adminFinal, authFinal, getKey_setKey_self,
      getKey_setKey_ne]
  · simp [lookupPath, getKey, adminFinal, getKey_setKey_self, getKey_setKey_ne]
  · simp [lookupPath, getKey, adminFinal, getKey_setKey_self, getKey_setKey_ne]
  · simp [lookupPath, getKey, adminFinal, getKey_setKey_self, getKey_setKey_ne]
  · intro k hk
    simp [lookupPath, getKey, adminFinal, authFinal, getKey_setKey_self,
      getKey_setKey_ne, hk, hclouds, hadmin, hauth]
  · intro k hk₁ hk₂ hk₃ hk₄
    simp [lookupPath, getKey, adminFinal, getKey_setKey_ne, hk₁, hk₂, hk₃, hk₄,
      hclouds, hadmin]
  · intro p hp
    simp [lookupPath, getKey, Ne.symm hp]

/-- C2 witness: the amended claim applied to `exampleDoc`, with the
preservation clause evaluated at the admin field `region_name`. -/
theorem C2_admin_mutation_witness :
    ∃ r : CloudsOut,
      (get_clouds_yaml_from_client true exampleDoc).1 = Except.ok (some r) ∧
      lookupPath r.writtenDoc ["clouds", "admin", "verify"] =
        some (Yaml.bool false) := by
  obtain ⟨r, h₁, -, h₂, -⟩ :=
    C2_admin_mutation
      [("clouds", Yaml.map
        [("admin", Yaml.map
           [("auth", Yaml.map [("auth_url", Yaml.str "http://keystone.local")]),
            ("region_name", Yaml.str "r1")]),
         ("otherCloud", Yaml.map [("region_name", Yaml.str "r2")])])]
      [("admin", Yaml.map
         [("auth", Yaml.map [("auth_url", Yaml.str "http://keystone.local")]),
          ("region_name", Yaml.str "r1")]),
       ("otherCloud", Yaml.map [("region_name", Yaml.str "r2")])]
      [("auth", Yaml.map [("auth_url", Yaml.str "http://keystone.local")]),
       ("region_name", Yaml.str "r1")]
      [("auth_url", Yaml.str "http://keystone.local")]
      rfl rfl rfl
  exact ⟨r, h₁, h₂⟩

/-- C3: when the kubeconfig file does not exist, both `get_ingress_ip`
and `get_clouds_yaml_from_client` print a diagnostic and return early
with the `None` sentinel, raising no exception and executing no remote
command and no file write. -/
theorem C3_missing_kubeconfig (stdout : String) (doc : Yaml) :
    (get_ingress_ip false stdout).1 = none ∧
    (get_ingress_ip false stdout).2 =
      [Ev.printMsg "KUBECONFIG file does not exist"] ∧
    (get_clouds_yaml_from_client false doc).1 = Except.ok none ∧
    (get_clouds_yaml_from_client false doc).2 =
      [Ev.printMsg "KUBECONFIG file does not exist"] ∧
    (∀ e ∈ (get_ingress_ip false stdout).2, ∃ msg, e = Ev.printMsg msg) ∧
    (∀ e ∈ (get_clouds_yaml_from_client false doc).2, ∃ msg, e = Ev.printMsg msg) := by
  refine ⟨rfl, rfl, rfl, rfl, ?_, ?_⟩
  · intro e he
    simp [get_ingress_ip] at he
    exact ⟨_, he⟩
  · intro e he
    simp [get_clouds_yaml_from_client] at he
    exact ⟨_, he⟩

/-- C3 witness: the diagnostic event of a concrete early-returning run. -/
theorem C3_missing_kubeconfig_witness :
    ∃ msg, Ev.printMsg "KUBECONFIG file does not exist" = Ev.printMsg msg :=
  (C3_missing_kubeconfig "" Yaml.null).2.2.2.2.1
    (Ev.printMsg "KUBECONFIG file does not exist") (by decide)

/-- C6 counterexample: with `KUBECTL_PATH` set to the empty string
(which is set, but falsy in Python) and the seed path present,
`install_kubectl` returns the seed path, not the variable's value. -/
theorem C6_counterexample :
    (install_kubectl ⟨some "", true, none, "linux", "x86_64", none, "/home/u"⟩).1 =
      seedKubectlPath ∧
    seedKubectlPath ≠ "" :=
  ⟨rfl, by decide⟩

/-- C6 (amended): `install_kubectl` resolves the kubectl path by the
strict preference order: (a) if `KUBECTL_PATH` is set to a non-empty
value, that value is returned (an empty value behaves as unset);
otherwise (b) the fixed seed-node path if it exists; otherwise (c) the
`shutil.which` result if any; otherwise (d) a fresh binary is
downloaded to `<home>/.local/bin/kubectl`, marked executable, and that
path is returned. -/
theorem C6_resolution_order (w : KubectlWorld) :
    (∀ s, w.kubectlPathEnv = some s → s ≠ "" → install_kubectl w = (s, [])) ∧
    (envTruthy w.kubectlPathEnv = false → w.seedExists = true →
      install_kubectl w = (seedKubectlPath, [])) ∧
    (∀ p, envTruthy w.kubectlPathEnv = false → w.seedExists = false →
      w.whichResult = some p → (install_kubectl w).1 = p) ∧
    (envTruthy w.kubectlPathEnv = false → w.seedExists = false →
      w.whichResult = none →
      (install_kubectl w).1 = w.home ++ "/.local/bin/kubectl" ∧
      Ev.chmodFile (w.home ++ "/.local/bin/kubectl") ∈ (install_kubectl w).2 ∧
      ∃ url, Ev.download url (w.home ++ "/.local/bin/kubectl") ∈
        (install_kubectl w).2) := by
  refine ⟨?_, ?_, ?_, ?_⟩
  · intro s hs hne
    simp [install_kubectl, envTruthy, hs, hne]
  · intro henv hseed
    simp [install_kubectl, install_kubectl_rest, henv, hseed]
  · intro p henv hseed hwhich
    simp [install_kubectl, install_kubectl_rest, henv, hseed, hwhich]
  · intro henv hseed hwhich
    refine ⟨?_, ?_, ⟨"https://dl.k8s.io/release/" ++
        (match w.stableVersion with
          | some v => pyStrip v
          | none => "v1.27.0") ++ "/bin/" ++
        w.system ++ "/" ++ normalizeArch w.machine ++ "/kubectl", ?_⟩⟩ <;>
      simp [install_kubectl, install_kubectl_rest, henv, hseed, hwhich]

/-- C6 witness: a non-empty `KUBECTL_PATH` wins over an existing seed
path. -/
theorem C6_resolution_order_witness :
    install_kubectl ⟨some "/opt/bin/kubectl", true, none, "linux", "x86_64",
      none, "/home/u"⟩ = ("/opt/bin/kubectl", []) :=
  (C6_resolution_order
    ⟨some "/opt/bin/kubectl", true, none, "linux", "x86_64", none, "/home/u"⟩).1
    "/opt/bin/kubectl" rfl (by decide)

/-- C8: if the `KUBECONFIG` environment variable is entirely absent, the
process fails at module load with an unhandled `TypeError` (the path is
constructed immediately at source line 13), before any component of
`main` runs; with the variable present, the component sequence runs. -/
theorem C8_module_load_crash (w : World) (s : String) :
    runScript none w = Except.error
      "TypeError: argument should be a str or an os.PathLike object, not NoneType" ∧
    runScript (some s) w = Except.ok (mainTrace w) :=
  ⟨rfl, rfl⟩

/-- C9: for every input document whose `clouds`, `admin` and
`admin.auth` levels are mappings, the persisted document contains
exactly one cloud profile, `admin`; every other profile is dropped, and
the first returned value is the serialization of the (mutated) admin
profile alone, not of the full document. -/
theorem C9_single_profile (m cm am au : List (String × Yaml))
    (hclouds : getKey m "clouds" = some (Yaml.map cm))
    (hadmin : getKey cm "admin" = some (Yaml.map am))
    (hauth : getKey am "auth" = some (Yaml.map au)) :
    ∃ adminVal : Yaml,
      (get_clouds_yaml_from_client true (Yaml.map m)).1 =
        Except.ok (some ⟨adminVal,
          Yaml.map [("clouds", Yaml.map [("admin", adminVal)])],
          "clouds.yaml"⟩) ∧
      (∀ p, p ≠ "admin" →
        lookupPath (Yaml.map [("clouds", Yaml.map [("admin", adminVal)])])
          ["clouds", p] = none) ∧
      adminVal = Yaml.map (adminFinal am au) := by
  refine ⟨Yaml.map (adminFinal am au),
    congrArg Prod.fst (clouds_run m cm am au hclouds hadmin hauth), ?_, rfl⟩
  intro p hp
  simp [lookupPath, getKey, Ne.symm hp]

/-- C9 witness: the single-profile shape at the concrete `exampleDoc`. -/
theorem C9_single_profile_witness :
    ∃ adminVal : Yaml,
      (get_clouds_yaml_from_client true exampleDoc).1 =
        Except.ok (some ⟨adminVal,
          Yaml.map [("clouds", Yaml.map [("admin", adminVal)])],
          "clouds.yaml"⟩) := by
  obtain ⟨a, h₁, -⟩ :=
    C9_single_profile
      [("clouds", Yaml.map
        [("admin", Yaml.map
           [("auth", Yaml.map [("auth_url", Yaml.str "http://keystone.local")]),
            ("region_name", Yaml.str "r1")]),
         ("otherCloud", Yaml.map [("region_name", Yaml.str "r2")])])]
      [("admin", Yaml.map
         [("auth", Yaml.map [("auth_url", Yaml.str "http://keystone.local")]),
          ("region_name", Yaml.str "r1")]),
       ("otherCloud", Yaml.map [("region_name", Yaml.str "r2")])]
      [("auth", Yaml.map [("auth_url", Yaml.str "http://keystone.local")]),
       ("region_name", Yaml.str "r1")]
      [("auth_url", Yaml.str "http://keystone.local")]
      rfl rfl rfl
  exact ⟨a, h₁⟩

end OpenstackSetup
